import Mathlib

/-!
# FaceMoji backend — shallow embedding and verification

This file embeds the core numeric and stateful logic of the FaceMoji backend
(`app/services/face_detector.py`, `app/services/emoji_recommender.py`,
`app/services/face_processor.py`, `app/services/websocket_manager.py`,
`app/services/job_manager.py`) into Lean and proves or refutes the frozen
specification claims about it.

Conventions:
* Python floats are modelled as real numbers (`ℝ`) where square roots occur
  (landmark geometry) and as rationals (`ℚ`) elsewhere (scores, opacities,
  timestamps), with exact arithmetic.
* Python exceptions are modelled with `Except PyError`; a `try/except`
  wrapper becomes a `match` on the `Except` value.
* Python dicts that are used as ordered association containers are modelled
  as association lists in insertion order (CPython dicts preserve insertion
  order, which the recommender relies on for tie-breaking).
-/

/-- Python exception values that the embedded code can raise. -/
inductive PyError where
  | nameError (name : String)
  | attributeError (name : String)
  | keyError (key : String)
  | indexError
deriving DecidableEq, Repr

/-- Python dict assignment `d[k] = v`: update in place when the key exists
(keeping its position), append otherwise. -/
def dictSet {α : Type} (l : List (String × α)) (k : String) (v : α) : List (String × α) :=
  if (l.lookup k).isSome then l.map (fun kv => if kv.1 == k then (k, v) else kv)
  else l ++ [(k, v)]

/-- Python dict deletion `del d[k]`: `KeyError` when the key is absent. -/
def dictDel {α : Type} (l : List (String × α)) (k : String) :
    Except PyError (List (String × α)) :=
  if (l.lookup k).isSome then Except.ok (l.filter (fun kv => kv.1 ≠ k))
  else Except.error (PyError.keyError k)

namespace FaceDetector

/-! ## Expression classifier (`FaceDetector._classify_expression`, lines 180–210)

The classifier receives the four scalar features and walks a fixed
`if/elif/else` chain.  Thresholds are the literals of lines 185–188. -/

/-- Threshold `mouth_open_threshold = 0.3` (line 185). -/
def mouth_open_threshold : ℝ := 0.3

/-- Threshold `mouth_wide_threshold = 60` (line 186). -/
def mouth_wide_threshold : ℝ := 60

/-- Threshold `eye_open_threshold = 0.25` (line 187). -/
def eye_open_threshold : ℝ := 0.25

/-- Threshold `eyebrow_raised_threshold = 20` (line 188). -/
def eyebrow_raised_threshold : ℝ := 20

/-- `FaceDetector._classify_expression` (lines 180–210): the ordered
`if/elif` decision tree over the four geometric features, returning the
primary label together with the per-branch confidence. -/
noncomputable def classify_expression (mouth_height mouth_width eye_openness eyebrow_height : ℝ) :
    String × ℝ :=
  if mouth_height > mouth_open_threshold then
    if eye_openness > eye_open_threshold then ("surprised", 0.8)
    else ("laughing", 0.7)
  else if mouth_width > mouth_wide_threshold then ("happy", 0.85)
  else if eyebrow_height > eyebrow_raised_threshold then
    if eye_openness < eye_open_threshold then ("angry", 0.7)
    else ("surprised", 0.6)
  else if eye_openness < 0.2 then ("sleepy", 0.6)
  else ("neutral", 0.5)

/-- The decision tree exactly as the specification words it ("mouth-openness
> 0.3 AND eye-openness > 0.25 ⇒ surprised; mouth-openness > 0.3 AND
eye-openness ≤ 0.25 ⇒ laughing; else mouth-width > 60px ⇒ happy; else
eyebrow-elevation > 20 AND eye-openness < 0.25 ⇒ angry; else
eyebrow-elevation > 20 ⇒ surprised; else eye-openness < 0.2 ⇒ sleepy; else
neutral", first matching rule wins).  Written from the spec, to be compared
with `classify_expression`, which is written from the source. -/
noncomputable def spec_decision_tree (mouth_openness mouth_width eye_openness eyebrow_elevation : ℝ) :
    String × ℝ :=
  if mouth_openness > 0.3 ∧ eye_openness > 0.25 then ("surprised", 0.8)
  else if mouth_openness > 0.3 ∧ eye_openness ≤ 0.25 then ("laughing", 0.7)
  else if mouth_width > 60 then ("happy", 0.85)
  else if eyebrow_elevation > 20 ∧ eye_openness < 0.25 then ("angry", 0.7)
  else if eyebrow_elevation > 20 then ("surprised", 0.6)
  else if eye_openness < 0.2 then ("sleepy", 0.6)
  else ("neutral", 0.5)

/-- The fixed label enumeration of the spec. -/
def expression_labels : List String :=
  ["happy", "surprised", "laughing", "angry", "sleepy", "neutral"]

/-! ## Feature extraction (`FaceDetector._analyze_expression`, lines 88–178)

Landmark points are integer pixel pairs as produced by dlib
(`(landmarks.part(i).x, landmarks.part(i).y)`, line 45).  Python list
indexing that can raise `IndexError` is modelled in the `Option` monad; the
`try/except` of `_analyze_expression` that turns any exception into the
`("neutral", 0.5)` fallback becomes `Option.getD`.  Numpy float division by
zero does not raise (it produces non-finite floats), so divisions stay
ordinary field divisions. -/

/-- A landmark point: integer pixel coordinates. -/
abbrev Pt := ℤ × ℤ

/-- `np.linalg.norm` of the difference of two landmark points: Euclidean
distance. -/
noncomputable def dist (p q : Pt) : ℝ :=
  Real.sqrt (((q.1 - p.1 : ℤ) : ℝ) ^ 2 + ((q.2 - p.2 : ℤ) : ℝ) ^ 2)

/-- Python list slice `l[a:b]` for `0 ≤ a ≤ b`. -/
def pySlice (l : List α) (a b : ℕ) : List α := (l.drop a).take (b - a)

/-- `FaceDetector._calculate_mouth_openness` (lines 127–142): vertical
distance between the averaged upper-lip triple (`mouth_points[13..15]`) and
lower-lip triple (`mouth_points[19],[18],[17]`), divided by
`max(mouth_width, 1)` where `mouth_width` is the corner-to-corner distance
(`mouth_points[0]`, `mouth_points[6]`).  `np.mean(..., axis=0)` is the
componentwise mean; only the y component is used. -/
noncomputable def calculate_mouth_openness (mouth_points : List Pt) : Option ℝ := do
  let p13 ← mouth_points.get? 13
  let p14 ← mouth_points.get? 14
  let p15 ← mouth_points.get? 15
  let p19 ← mouth_points.get? 19
  let p18 ← mouth_points.get? 18
  let p17 ← mouth_points.get? 17
  let left_corner ← mouth_points.get? 0
  let right_corner ← mouth_points.get? 6
  let top_lip_y : ℝ := ((p13.2 + p14.2 + p15.2 : ℤ) : ℝ) / 3
  let bottom_lip_y : ℝ := ((p19.2 + p18.2 + p17.2 : ℤ) : ℝ) / 3
  let mouth_width := dist left_corner right_corner
  let mouth_height := |top_lip_y - bottom_lip_y|
  pure (mouth_height / max mouth_width 1)

/-- `FaceDetector._calculate_mouth_width` (lines 144–148): raw
corner-to-corner distance. -/
noncomputable def calculate_mouth_width (mouth_points : List Pt) : Option ℝ := do
  let left_corner ← mouth_points.get? 0
  let right_corner ← mouth_points.get? 6
  pure (dist left_corner right_corner)

/-- The inner `eye_aspect_ratio` of `_calculate_eye_openness`
(lines 152–158). -/
noncomputable def eye_aspect_ratio (eye_points : List Pt) : Option ℝ := do
  let p0 ← eye_points.get? 0
  let p1 ← eye_points.get? 1
  let p2 ← eye_points.get? 2
  let p3 ← eye_points.get? 3
  let p4 ← eye_points.get? 4
  let p5 ← eye_points.get? 5
  let a := dist p1 p5
  let b := dist p2 p4
  let c := dist p0 p3
  pure ((a + b) / (2 * c))

/-- `FaceDetector._calculate_eye_openness` (lines 150–162): average of the
two eye aspect ratios. -/
noncomputable def calculate_eye_openness (left_eye right_eye : List Pt) : Option ℝ := do
  let left_ear ← eye_aspect_ratio left_eye
  let right_ear ← eye_aspect_ratio right_eye
  pure ((left_ear + right_ear) / 2)

/-- `np.mean(points, axis=0)` restricted to the y component (the only
component `_calculate_eyebrow_height` reads). -/
noncomputable def meanY (pts : List Pt) : ℝ :=
  (((pts.map Prod.snd).sum : ℤ) : ℝ) / (pts.length : ℝ)

/-- `FaceDetector._calculate_eyebrow_height` (lines 164–178): per side, the
absolute vertical distance between the eyebrow triple mean
(`eyebrows[0..2]` and `eyebrows[5..7]`) and the eye centroid, averaged over
the two sides. -/
noncomputable def calculate_eyebrow_height (eyebrows left_eye right_eye : List Pt) :
    Option ℝ := do
  let b0 ← eyebrows.get? 0
  let b1 ← eyebrows.get? 1
  let b2 ← eyebrows.get? 2
  let b5 ← eyebrows.get? 5
  let b6 ← eyebrows.get? 6
  let b7 ← eyebrows.get? 7
  let left_brow_y : ℝ := ((b0.2 + b1.2 + b2.2 : ℤ) : ℝ) / 3
  let right_brow_y : ℝ := ((b5.2 + b6.2 + b7.2 : ℤ) : ℝ) / 3
  let left_dist := |left_brow_y - meanY left_eye|
  let right_dist := |right_brow_y - meanY right_eye|
  pure ((left_dist + right_dist) / 2)

/-- `FaceDetector._analyze_expression` (lines 88–125): slice the landmark
list into regions, compute the four features, classify; any exception
raised on the way (an `IndexError` from landmark indexing) is caught and
replaced by the `("neutral", 0.5)` fallback of lines 123–125. -/
noncomputable def analyze_expression (landmarks : List Pt) : String × ℝ :=
  (do
    let left_eye := pySlice landmarks 36 42
    let right_eye := pySlice landmarks 42 48
    let mouth := pySlice landmarks 48 68
    let eyebrows := pySlice landmarks 17 27
    let mouth_height ← calculate_mouth_openness mouth
    let mouth_width ← calculate_mouth_width mouth
    let eye_openness ← calculate_eye_openness left_eye right_eye
    let eyebrow_height ← calculate_eyebrow_height eyebrows left_eye right_eye
    pure (classify_expression mouth_height mouth_width eye_openness eyebrow_height)
    : Option (String × ℝ)).getD ("neutral", 0.5)

/-- A 68-point landmark set whose mouth-corner landmarks (indices 48 and
54) coincide, forcing mouth width 0; the eyes are ordinary (aspect ratio
0.1) and the upper/lower lip triples are 3 pixels apart. -/
def degenerate_landmarks : List Pt :=
  List.replicate 17 ((0 : ℤ), (0 : ℤ)) ++
  List.replicate 10 ((0 : ℤ), (10 : ℤ)) ++
  List.replicate 9 ((0 : ℤ), (0 : ℤ)) ++
  [(0, 0), (2, 1), (4, 1), (10, 0), (4, 0), (2, 0)] ++
  [(0, 0), (2, 1), (4, 1), (10, 0), (4, 0), (2, 0)] ++
  [(5, 5)] ++ List.replicate 5 ((0 : ℤ), (0 : ℤ)) ++ [(5, 5)] ++
  List.replicate 10 ((0 : ℤ), (0 : ℤ)) ++
  List.replicate 3 ((0 : ℤ), (3 : ℤ))

end FaceDetector

namespace EmojiRecommender

/-! ## Emoji recommender (`app/services/emoji_recommender.py`)

The emoji database of `_load_emoji_database` (lines 14–102) is a dict in
insertion order; it is modelled as a list of entries in that order.  Dict
key access (`self.emoji_database[emoji_id]`, which raises `KeyError` when
absent) is `dictGet`. -/

/-- One entry of the hardcoded emoji database. -/
structure EmojiEntry where
  id : String
  emoji : String
  expression : String
  confidence_threshold : ℚ
  url : String
  anchor_points : List (String × ℤ × ℤ)
deriving DecidableEq, Repr

/-- `_load_emoji_database` (lines 14–102), entries in dict insertion
order. -/
def emoji_database : List EmojiEntry :=
  [{ id := "happy_001", emoji := "😀", expression := "happy", confidence_threshold := 0.7,
     url := "https://cdn.emojiswap.com/assets/happy_001.webp",
     anchor_points := [("left_eye", 80, 95), ("right_eye", 176, 95), ("mouth_center", 128, 180)] },
   { id := "happy_002", emoji := "😍", expression := "happy", confidence_threshold := 0.8,
     url := "https://cdn.emojiswap.com/assets/happy_002.webp",
     anchor_points := [("left_eye", 80, 95), ("right_eye", 176, 95), ("mouth_center", 128, 180)] },
   { id := "surprised_001", emoji := "😲", expression := "surprised", confidence_threshold := 0.6,
     url := "https://cdn.emojiswap.com/assets/surprised_001.webp",
     anchor_points := [("left_eye", 80, 85), ("right_eye", 176, 85), ("mouth_center", 128, 190)] },
   { id := "laughing_001", emoji := "🤣", expression := "laughing", confidence_threshold := 0.7,
     url := "https://cdn.emojiswap.com/assets/laughing_001.webp",
     anchor_points := [("left_eye", 80, 90), ("right_eye", 176, 90), ("mouth_center", 128, 185)] },
   { id := "angry_001", emoji := "😠", expression := "angry", confidence_threshold := 0.6,
     url := "https://cdn.emojiswap.com/assets/angry_001.webp",
     anchor_points := [("left_eye", 80, 100), ("right_eye", 176, 100), ("mouth_center", 128, 175)] },
   { id := "neutral_001", emoji := "😐", expression := "neutral", confidence_threshold := 0.4,
     url := "https://cdn.emojiswap.com/assets/neutral_001.webp",
     anchor_points := [("left_eye", 80, 95), ("right_eye", 176, 95), ("mouth_center", 128, 180)] },
   { id := "sleepy_001", emoji := "😴", expression := "sleepy", confidence_threshold := 0.5,
     url := "https://cdn.emojiswap.com/assets/sleepy_001.webp",
     anchor_points := [("left_eye", 80, 98), ("right_eye", 176, 98), ("mouth_center", 128, 180)] }]

/-- Python dict access `self.emoji_database[emoji_id]`: `KeyError` when the
id is absent. -/
def dictGet (eid : String) : Except PyError EmojiEntry :=
  match emoji_database.find? (fun e => e.id == eid) with
  | some e => Except.ok e
  | none => Except.error (PyError.keyError eid)

/-- One step of the `_create_expression_mappings` loop (lines 104–112):
append the id to the list for its expression, creating the key on first
sight (dicts keep key insertion order). -/
def add_mapping (m : List (String × List String)) (expr eid : String) :
    List (String × List String) :=
  if (m.lookup expr).isSome then
    m.map (fun kv => if kv.1 == expr then (kv.1, kv.2 ++ [eid]) else kv)
  else m ++ [(expr, [eid])]

/-- `_create_expression_mappings` (lines 104–112): fold over the database in
insertion order. -/
def expression_mappings : List (String × List String) :=
  emoji_database.foldl (fun m e => add_mapping m e.expression e.id) []

/-- `_calculate_emoji_score` (lines 180–195): the expression confidence,
multiplied by 1.2 when it reaches the candidate threshold, capped at 1. -/
def calculate_emoji_score (confidence threshold : ℚ) : ℚ :=
  let base_score := if confidence ≥ threshold then confidence * 1.2 else confidence
  min base_score 1.0

/-- Candidate selection of `recommend_emoji` (lines 130–134): the ids
tagged with the primary expression, falling back to the "neutral" tag set
(`self.expression_mappings.get("neutral", ["neutral_001"])`) when empty. -/
def candidate_ids (primary_expression : String) : List String :=
  let candidates := (expression_mappings.lookup primary_expression).getD []
  if candidates.isEmpty then (expression_mappings.lookup "neutral").getD ["neutral_001"]
  else candidates

/-- The scoring loop of `recommend_emoji` (lines 137–143). -/
def score_candidates (confidence : ℚ) (ids : List String) :
    Except PyError (List (String × ℚ)) :=
  ids.mapM (fun eid => do
    let emoji_data ← dictGet eid
    pure (eid, calculate_emoji_score confidence emoji_data.confidence_threshold))

/-- Insertion into a descending-sorted list that keeps the earlier element
first on equal keys: the observable behavior of the stable
`scored_candidates.sort(key=lambda x: x[1], reverse=True)` of line 146
(CPython sort is stable, so equal scores keep list order). -/
def insert_desc (x : String × ℚ) : List (String × ℚ) → List (String × ℚ)
  | [] => [x]
  | y :: ys => if x.2 ≥ y.2 then x :: y :: ys else y :: insert_desc x ys

/-- Stable descending sort by score (line 146). -/
def sort_desc : List (String × ℚ) → List (String × ℚ)
  | [] => []
  | x :: xs => insert_desc x (sort_desc xs)

/-- The ranked candidate list of `recommend_emoji`: scored candidates after
the stable descending sort (lines 137–146). -/
def recommend_ranked (primary_expression : String) (confidence : ℚ) :
    Except PyError (List (String × ℚ)) := do
  let scored_candidates ← score_candidates confidence (candidate_ids primary_expression)
  pure (sort_desc scored_candidates)

/-- An entry of the `alternatives` list (lines 153–160). -/
structure AltEntry where
  id : String
  emoji : String
  score : ℚ
deriving DecidableEq, Repr

/-- The primary recommendation payload (lines 163–169). -/
structure EmojiPick where
  id : String
  emoji : String
  url : String
  anchor_points : List (String × ℤ × ℤ)
  score : ℚ
deriving DecidableEq, Repr

/-- The value returned by `recommend_emoji` (lines 162–173). -/
structure Recommendation where
  primary : EmojiPick
  alternatives : List AltEntry
  expression_matched : String
  confidence : ℚ
deriving DecidableEq, Repr

/-- The body of the `try` block of `recommend_emoji` (lines 124–173): rank
the candidates, take `scored_candidates[0]` as primary (an `IndexError` on
an empty list) and the next three as alternatives.  The inputs are the
primary label and confidence read off `face_data` (the `.get` defaults
"neutral" and 0.5 apply upstream of this call). -/
def recommend_emoji_core (primary_expression : String) (confidence : ℚ) :
    Except PyError Recommendation := do
  let scored_candidates ← recommend_ranked primary_expression confidence
  match scored_candidates with
  | [] => Except.error PyError.indexError
  | (primary_emoji_id, primary_score) :: rest => do
    let primary_emoji ← dictGet primary_emoji_id
    let alternatives ← (rest.take 3).mapM (fun x => do
      let emoji_data ← dictGet x.1
      pure (AltEntry.mk x.1 emoji_data.emoji x.2))
    Except.ok
      { primary :=
          { id := primary_emoji_id, emoji := primary_emoji.emoji, url := primary_emoji.url,
            anchor_points := primary_emoji.anchor_points, score := primary_score },
        alternatives := alternatives,
        expression_matched := primary_expression,
        confidence := confidence }

/-- `_get_default_recommendation` (lines 197–211).  The database lookup of
line 199 cannot fail on the hardcoded database; the error arm is
unreachable. -/
def get_default_recommendation : Recommendation :=
  match dictGet "neutral_001" with
  | Except.ok default_emoji =>
      { primary :=
          { id := "neutral_001", emoji := default_emoji.emoji, url := default_emoji.url,
            anchor_points := default_emoji.anchor_points, score := 0.5 },
        alternatives := [], expression_matched := "neutral", confidence := 0.5 }
  | Except.error _ =>
      { primary :=
          { id := "neutral_001", emoji := "", url := "", anchor_points := [], score := 0.5 },
        alternatives := [], expression_matched := "neutral", confidence := 0.5 }

/-- `recommend_emoji` (lines 114–178): the `try/except` that answers any
internal exception with the default neutral recommendation. -/
def recommend_emoji (primary_expression : String) (confidence : ℚ) : Recommendation :=
  match recommend_emoji_core primary_expression confidence with
  | Except.ok r => r
  | Except.error _ => get_default_recommendation

/-- Catalog insertion index of an id: its position in the database. -/
def db_index (eid : String) : ℕ := (emoji_database.map (fun e => e.id)).indexOf eid

end EmojiRecommender

namespace FaceProcessor

/-! ## Overlay compositing (`app/services/face_processor.py`,
`process_face` lines 110–128)

Channel values of an 8-bit image are `Fin 256`.  The alpha blend of
lines 122–128 operates on the clipped overlay rectangle of lines 111–119;
pixels outside that rectangle are untouched. -/

/-- numpy float-to-uint8 conversion (`astype(np.uint8)` of line 128):
truncation toward zero, then wraparound.  The blended values here are
convex combinations of channel values in [0, 255], hence nonnegative, so
truncation toward zero is the floor. -/
def npUint8 (x : ℚ) : ℕ := (⌊x⌋).toNat % 256

/-- One channel of the alpha blend of lines 122–128:
`alpha = (asset alpha channel)/255 * configured opacity`, output
`alpha * asset + (1 - alpha) * destination`. -/
def composite_pixel (asset_alpha : Fin 256) (opacity : ℚ) (asset_c dst_c : Fin 256) :
    Fin 256 :=
  let alpha : ℚ := ((asset_alpha : ℕ) : ℚ) / 255 * opacity
  ⟨npUint8 (alpha * ((asset_c : ℕ) : ℚ) + (1 - alpha) * ((dst_c : ℕ) : ℚ)),
    Nat.mod_lt _ (by norm_num)⟩

/-- The sliced assignment of lines 125–128 seen per pixel: inside the
clipped overlay rectangle the destination channel is replaced by the alpha
blend, outside it keeps its value. -/
def composite_region (opacity : ℚ) (in_region : ℕ → ℕ → Bool)
    (asset_alpha asset dst : ℕ → ℕ → Fin 256) (x y : ℕ) : Fin 256 :=
  if in_region x y then composite_pixel (asset_alpha x y) opacity (asset x y) (dst x y)
  else dst x y

end FaceProcessor

namespace FaceDetectorModule

/-! ## The `detect_faces` entry point (`app/services/face_detector.py`,
lines 20–76)

`detect_faces` begins with `start_time = time.time()` on line 27, BEFORE
the `try` block that starts on line 29.  The module imports (lines 1–8)
are `cv2`, `dlib`, `numpy as np`, four `typing` names and `logging`; the
module also binds `logger`, the class `FaceDetector` and the instance
`face_detector`.  `time` is never imported, so the name lookup on line 27
raises `NameError`, which no handler catches. -/

/-- The names bound at module scope in `app/services/face_detector.py` by
the time `detect_faces` runs. -/
def module_bindings : List String :=
  ["cv2", "dlib", "np", "Dict", "List", "Optional", "Tuple", "logging", "logger",
   "FaceDetector", "face_detector"]

/-- Python global-name resolution: `NameError` when the name is unbound. -/
def resolveGlobal (n : String) : Except PyError Unit :=
  if n ∈ module_bindings then Except.ok () else Except.error (PyError.nameError n)

/-- The dictionary `detect_faces` is documented to return: a "faces" list,
plus an error field on the malformed-image path. -/
structure DetectResult where
  faces : List String
  error : Option String
deriving DecidableEq, Repr

/-- `FaceDetector.detect_faces` (lines 20–76): line 27 resolves the global
name `time` before anything else; the body from line 29 on (image decode,
dlib detection, and the `try/except` that returns
`{"error": ..., "faces": []}`) is unreachable because the lookup fails, and
is represented here by its entry point only. -/
def detect_faces (image_data : List (Fin 256)) : Except PyError DetectResult := do
  let _ ← resolveGlobal "time"
  Except.ok { faces := [], error := none }

end FaceDetectorModule

namespace WebSocketManager

/-! ## Frame stream coordinator (`app/services/websocket_manager.py`)

Subscriber sets are lists of client ids, timestamps are rationals in
seconds.  The pipeline of `process_frame` lines 62 and 65 cannot succeed:
line 62 reads `self.face_detector` (`None` until the websocket endpoint of
`api.py` line 307 assigns the global detector, whose `detect_faces` then
raises `NameError`, see `FaceDetectorModule`), and line 65 calls
`emoji_recommender.recommend_emojis`, a method that does not exist on
`EmojiRecommender` (the class defines `recommend_emoji`, `get_all_emojis`
and `get_emojis_by_expression`), raising `AttributeError`.  Either way the
`except` arm of lines 85–89 broadcasts an error event and the state update
of lines 79–83 never runs. -/

/-- The per-device state dict created by `connect` (lines 23–28). -/
structure DeviceState where
  last_expression : Option String
  confidence_threshold : ℚ
  frame_counter : ℕ
  last_frame_time : ℚ
deriving DecidableEq, Repr

/-- The manager state of `__init__` (lines 9–16).  `target_fps = 30`, so
`min_frame_interval = 1/30`.  `face_detector_initialized` is whether the
endpoint has assigned `websocket_manager.face_detector`. -/
structure ManagerState where
  active_connections : List (String × List ℕ)
  device_states : List (String × DeviceState)
  last_frame_times : List (String × ℚ)
  face_detector_initialized : Bool
deriving DecidableEq, Repr

/-- `min_frame_interval = 1.0 / target_fps` (line 16). -/
def min_frame_interval : ℚ := 1 / 30

/-- The state built by `__init__` (lines 9–16): all maps empty,
`face_detector = None`. -/
def initial_manager : ManagerState :=
  { active_connections := [], device_states := [], last_frame_times := [],
    face_detector_initialized := false }

/-- A broadcast published to the subscribers of a device. -/
inductive Event where
  | processing_result (device_id : String) (frame_id : ℕ)
  | error_event (device_id : String) (message : String)
deriving DecidableEq, Repr

/-- `set.add` on the subscriber set (line 29): no-op when present. -/
def add_subscriber (l : List (String × List ℕ)) (k : String) (ws : ℕ) :
    List (String × List ℕ) :=
  l.map (fun kv =>
    if kv.1 == k then (kv.1, if ws ∈ kv.2 then kv.2 else kv.2 ++ [ws]) else kv)

/-- `connect` (lines 18–29) at time `now` for client `ws`: on the first
connection for the device id, create the empty subscriber set and the
device state (note: the timestamp goes into `device_states`;
`last_frame_times` is never written anywhere in the class), then add the
subscriber. -/
def connect (m : ManagerState) (ws : ℕ) (device_id : String) (now : ℚ) : ManagerState :=
  let m :=
    if (m.active_connections.lookup device_id).isSome then m
    else
      { m with
        active_connections := dictSet m.active_connections device_id [],
        device_states := dictSet m.device_states device_id
          { last_expression := none, confidence_threshold := 0.8,
            frame_counter := 0, last_frame_time := now } }
  { m with active_connections := add_subscriber m.active_connections device_id ws }

/-- `set.remove` (line 34): `KeyError` when the element is absent. -/
def set_remove (s : List ℕ) (ws : ℕ) : Except PyError (List ℕ) :=
  if ws ∈ s then Except.ok (s.filter (fun w => w ≠ ws))
  else Except.error (PyError.keyError (toString ws))

/-- `disconnect` (lines 31–38): remove the subscriber; when the set becomes
empty, `del` the subscriber set, the device state and the last-frame-time
entry in that order.  Any raised `KeyError` propagates to the caller (in
`api.py` the call sits in a `finally`, so it escapes). -/
def disconnect (m : ManagerState) (ws : ℕ) (device_id : String) :
    Except PyError ManagerState :=
  match m.active_connections.lookup device_id with
  | none => Except.ok m
  | some subs => do
    let subs2 ← set_remove subs ws
    if subs2.isEmpty then do
      let ac ← dictDel (dictSet m.active_connections device_id subs2) device_id
      let ds ← dictDel m.device_states device_id
      let lft ← dictDel m.last_frame_times device_id
      Except.ok
        { m with active_connections := ac, device_states := ds, last_frame_times := lft }
    else
      Except.ok { m with active_connections := dictSet m.active_connections device_id subs2 }

/-- The runtime message of each modelled exception. -/
def errorMessage : PyError → String
  | PyError.nameError n => "name " ++ n ++ " is not defined"
  | PyError.attributeError n => "no attribute " ++ n
  | PyError.keyError k => k
  | PyError.indexError => "list index out of range"

/-- Attribute lookup on the `EmojiRecommender` instance; its methods are
`recommend_emoji`, `get_all_emojis` and `get_emojis_by_expression`. -/
def resolveRecommenderAttr (n : String) : Except PyError Unit :=
  if n ∈ ["recommend_emoji", "get_all_emojis", "get_emojis_by_expression"] then Except.ok ()
  else Except.error (PyError.attributeError n)

/-- Lines 62 and 65 of `process_frame`: the detector call (an
`AttributeError` on `None`, or the `NameError` from `detect_faces`), then
the lookup of the nonexistent method `recommend_emojis`. -/
def frame_pipeline (face_detector_initialized : Bool) (frame_data : List (Fin 256)) :
    Except PyError Unit := do
  let _ ←
    if face_detector_initialized then do
      let _ ← FaceDetectorModule.detect_faces frame_data
      Except.ok ()
    else Except.error (PyError.attributeError "detect_faces")
  let _ ← resolveRecommenderAttr "recommend_emojis"
  Except.ok ()

/-- `process_frame` (lines 50–89) dispatched at `now` with `frame_id`: read
the device state with the `{}` default, return silently (no event, no state
change) when the elapsed time since `last_frame_time` (default 0) is below
the minimum interval; otherwise run the pipeline.  An exception is answered
by broadcasting an error event (lines 85–89); only a successful pipeline
reaches the result broadcast and the state update of lines 68–83. -/
def process_frame (m : ManagerState) (device_id : String) (frame_data : List (Fin 256))
    (frame_id : ℕ) (now : ℚ) : ManagerState × List Event :=
  let last := ((m.device_states.lookup device_id).map
    (fun ds => ds.last_frame_time)).getD 0
  if now - last < min_frame_interval then (m, [])
  else
    match frame_pipeline m.face_detector_initialized frame_data with
    | Except.error e => (m, [Event.error_event device_id (errorMessage e)])
    | Except.ok _ =>
      let ds := (m.device_states.lookup device_id).getD
        { last_expression := none, confidence_threshold := 0.8, frame_counter := 0,
          last_frame_time := 0 }
      let ds2 := { ds with last_frame_time := now, frame_counter := ds.frame_counter + 1 }
      ({ m with device_states := dictSet m.device_states device_id ds2 },
        [Event.processing_result device_id frame_id])

/-- Trace for the frame-admission claim: one client connected for "dev" at
t = 0 with the detector assigned (`api.py` line 307), frames submitted at
t = 1 s and t = 1.01 s (10 ms apart). -/
def admission_m0 : ManagerState :=
  { connect initial_manager 0 "dev" 0 with face_detector_initialized := true }

/-- First frame of the admission trace, submitted at t = 1 s. -/
def admission_r1 : ManagerState × List Event := process_frame admission_m0 "dev" [] 1 1

/-- Second frame of the admission trace, submitted 10 ms later. -/
def admission_r2 : ManagerState × List Event :=
  process_frame admission_r1.1 "dev" [] 2 (1 + 1 / 100)

end WebSocketManager

namespace JobManager

/-! ## Batch job tracker (`app/services/job_manager.py`)

`update_job_status` (lines 34–45) reads the record, overwrites the status
field, optionally sets the result, and writes the record back with a
refreshed TTL.  The store is the key-value map of `job:` keys; TTLs are
elided: the claim concerns status transitions while the record is live,
and an expired record reads as absent. -/

/-- A job record, restricted to the fields `update_job_status` touches. -/
structure JobData where
  status : String
  result : Option String
deriving DecidableEq, Repr

/-- The `job:` store key of lines 20, 29, 36 and 42. -/
def jobKey (job_id : String) : String := "job:" ++ job_id

/-- The key-value store holding job records. -/
abbrev Store : Type := List (String × JobData)

/-- `update_job_status` (lines 34–45): when the record exists, set the
status unconditionally, set the result when a truthy one is given, and
write the record back; when the record is absent, do nothing. -/
def update_job_status (store : Store) (job_id status : String)
    (result : Option String) : Store :=
  match List.lookup (jobKey job_id) store with
  | none => store
  | some job_data =>
    let job_data := { job_data with status := status }
    let job_data :=
      match result with
      | some r => { job_data with result := some r }
      | none => job_data
    dictSet store (jobKey job_id) job_data

end JobManager

/-! ## Lemmas and theorems -/

/-- `Except.ok a >>= f` reduces to `f a` (definitional). -/
lemma ok_bind {ε α β : Type} (a : α) (f : α → Except ε β) :
    (Except.ok a >>= f : Except ε β) = f a := rfl

lemma lookup_dictSet_self {α : Type} (l : List (String × α)) (k : String) (v : α) :
    List.lookup k (dictSet l k v) = some v := by
  unfold dictSet
  split_ifs with h
  · induction l with
    | nil => simp [List.lookup] at h
    | cons kv t ih =>
      simp only [List.map_cons]
      by_cases hk : kv.1 = k
      · rw [if_pos (beq_iff_eq.mpr hk)]
        simp [List.lookup]
      · rw [if_neg (by simp [hk])]
        have hbeq2 : (k == kv.1) = false := beq_eq_false_iff_ne.mpr (Ne.symm hk)
        simp only [List.lookup, hbeq2]
        apply ih
        simpa [List.lookup, hbeq2] using h
  · induction l with
    | nil => simp [List.lookup]
    | cons kv t ih =>
      by_cases hk : k = kv.1
      · exfalso
        apply h
        simp [List.lookup, beq_iff_eq.mpr hk]
      · have hbeq : (k == kv.1) = false := beq_eq_false_iff_ne.mpr hk
        simp only [List.cons_append, List.lookup, hbeq]
        apply ih
        intro hsome
        apply h
        simpa [List.lookup, hbeq] using hsome

namespace FaceDetector

lemma dist_self_zero : dist ((5 : ℤ), (5 : ℤ)) ((5 : ℤ), (5 : ℤ)) = 0 := by
  simp [dist]

lemma dist_vert_one_a : dist ((2 : ℤ), (1 : ℤ)) ((2 : ℤ), (0 : ℤ)) = 1 := by
  unfold dist
  push_cast
  norm_num

lemma dist_vert_one_b : dist ((4 : ℤ), (1 : ℤ)) ((4 : ℤ), (0 : ℤ)) = 1 := by
  unfold dist
  push_cast
  norm_num

lemma dist_horiz_ten : dist ((0 : ℤ), (0 : ℤ)) ((10 : ℤ), (0 : ℤ)) = 10 := by
  unfold dist
  push_cast
  norm_num
  rw [show (100 : ℝ) = 10 ^ 2 by norm_num, Real.sqrt_sq (by norm_num : (0 : ℝ) ≤ 10)]

lemma degenerate_mouth_openness :
    calculate_mouth_openness (pySlice degenerate_landmarks 48 68) = some 3 := by
  have g13 : (pySlice degenerate_landmarks 48 68).get? 13 = some (0, 0) := rfl
  have g14 : (pySlice degenerate_landmarks 48 68).get? 14 = some (0, 0) := rfl
  have g15 : (pySlice degenerate_landmarks 48 68).get? 15 = some (0, 0) := rfl
  have g19 : (pySlice degenerate_landmarks 48 68).get? 19 = some (0, 3) := rfl
  have g18 : (pySlice degenerate_landmarks 48 68).get? 18 = some (0, 3) := rfl
  have g17 : (pySlice degenerate_landmarks 48 68).get? 17 = some (0, 3) := rfl
  have g0 : (pySlice degenerate_landmarks 48 68).get? 0 = some (5, 5) := rfl
  have g6 : (pySlice degenerate_landmarks 48 68).get? 6 = some (5, 5) := rfl
  unfold calculate_mouth_openness
  rw [g13, g14, g15, g19, g18, g17, g0, g6]
  simp [dist_self_zero]
  norm_num [abs_sub_comm]

lemma degenerate_mouth_width :
    calculate_mouth_width (pySlice degenerate_landmarks 48 68) = some 0 := by
  have g0 : (pySlice degenerate_landmarks 48 68).get? 0 = some (5, 5) := rfl
  have g6 : (pySlice degenerate_landmarks 48 68).get? 6 = some (5, 5) := rfl
  unfold calculate_mouth_width
  rw [g0, g6]
  simp [dist_self_zero]

lemma degenerate_left_ear :
    eye_aspect_ratio (pySlice degenerate_landmarks 36 42) = some (1 / 10) := by
  have g0 : (pySlice degenerate_landmarks 36 42).get? 0 = some (0, 0) := rfl
  have g1 : (pySlice degenerate_landmarks 36 42).get? 1 = some (2, 1) := rfl
  have g2 : (pySlice degenerate_landmarks 36 42).get? 2 = some (4, 1) := rfl
  have g3 : (pySlice degenerate_landmarks 36 42).get? 3 = some (10, 0) := rfl
  have g4 : (pySlice degenerate_landmarks 36 42).get? 4 = some (4, 0) := rfl
  have g5 : (pySlice degenerate_landmarks 36 42).get? 5 = some (2, 0) := rfl
  unfold eye_aspect_ratio
  rw [g0, g1, g2, g3, g4, g5]
  simp [dist_vert_one_a, dist_vert_one_b, dist_horiz_ten]
  rw [show (0 : Pt) = ((0 : ℤ), (0 : ℤ)) from rfl, dist_horiz_ten]
  norm_num

lemma degenerate_eye_openness :
    calculate_eye_openness (pySlice degenerate_landmarks 36 42)
      (pySlice degenerate_landmarks 42 48) = some (1 / 10) := by
  have hr : eye_aspect_ratio (pySlice degenerate_landmarks 42 48) = some (1 / 10) := by
    rw [show pySlice degenerate_landmarks 42 48 = pySlice degenerate_landmarks 36 42 from rfl]
    exact degenerate_left_ear
  unfold calculate_eye_openness
  rw [degenerate_left_ear, hr]
  norm_num

lemma degenerate_eyebrow_height :
    calculate_eyebrow_height (pySlice degenerate_landmarks 17 27)
      (pySlice degenerate_landmarks 36 42) (pySlice degenerate_landmarks 42 48) =
      some (29 / 3) := by
  have b0 : (pySlice degenerate_landmarks 17 27).get? 0 = some (0, 10) := rfl
  have b1 : (pySlice degenerate_landmarks 17 27).get? 1 = some (0, 10) := rfl
  have b2 : (pySlice degenerate_landmarks 17 27).get? 2 = some (0, 10) := rfl
  have b5 : (pySlice degenerate_landmarks 17 27).get? 5 = some (0, 10) := rfl
  have b6 : (pySlice degenerate_landmarks 17 27).get? 6 = some (0, 10) := rfl
  have b7 : (pySlice degenerate_landmarks 17 27).get? 7 = some (0, 10) := rfl
  have hmy : meanY (pySlice degenerate_landmarks 36 42) = 1 / 3 := by
    rw [show pySlice degenerate_landmarks 36 42 =
      [((0 : ℤ), (0 : ℤ)), (2, 1), (4, 1), (10, 0), (4, 0), (2, 0)] from rfl]
    simp [meanY]
    norm_num
  have hmy2 : meanY (pySlice degenerate_landmarks 42 48) = 1 / 3 := by
    rw [show pySlice degenerate_landmarks 42 48 = pySlice degenerate_landmarks 36 42 from rfl]
    exact hmy
  unfold calculate_eyebrow_height
  rw [b0, b1, b2, b5, b6, b7]
  simp [hmy, hmy2]
  rw [abs_of_nonneg (by norm_num : (0 : ℝ) ≤ (10 + 10 + 10) / 3 - 3⁻¹)]
  norm_num

lemma classify_degenerate_features :
    classify_expression 3 0 10⁻¹ (29 / 3) = ("laughing", 0.7) := by
  unfold classify_expression mouth_open_threshold eye_open_threshold
  rw [if_pos (by norm_num), if_neg (by norm_num)]

lemma analyze_degenerate_eval :
    analyze_expression degenerate_landmarks = ("laughing", 0.7) := by
  unfold analyze_expression
  simp [degenerate_mouth_openness, degenerate_mouth_width, degenerate_eye_openness,
    degenerate_eyebrow_height]
  exact classify_degenerate_features

lemma analyze_degenerate_append_eval :
    analyze_expression (degenerate_landmarks ++ [(0 : Pt)]) = ("laughing", 0.7) := by
  unfold analyze_expression
  simp [show pySlice (degenerate_landmarks ++ [(0 : Pt)]) 36 42 =
      pySlice degenerate_landmarks 36 42 from rfl,
    show pySlice (degenerate_landmarks ++ [(0 : Pt)]) 42 48 =
      pySlice degenerate_landmarks 42 48 from rfl,
    show pySlice (degenerate_landmarks ++ [(0 : Pt)]) 48 68 =
      pySlice degenerate_landmarks 48 68 from rfl,
    show pySlice (degenerate_landmarks ++ [(0 : Pt)]) 17 27 =
      pySlice degenerate_landmarks 17 27 from rfl,
    degenerate_mouth_openness, degenerate_mouth_width, degenerate_eye_openness,
    degenerate_eyebrow_height]
  exact classify_degenerate_features

end FaceDetector

/-- C2 counterexample: on the malformed landmark inputs the claim covers —
`degenerate_landmarks` (68 points whose mouth-corner landmarks coincide,
giving a zero mouth width) and its 69-point extension (wrong point count)
— `_analyze_expression` does not return ("neutral", 0.5): the mouth-width
normalizer is `max(mouth_width, 1)`, so no division by zero occurs, the
mouth-openness feature becomes 3, and the decision tree yields
("laughing", 0.7). -/
theorem analyze_degenerate_counterexample :
    FaceDetector.analyze_expression FaceDetector.degenerate_landmarks = ("laughing", 0.7) ∧
    FaceDetector.analyze_expression
      (FaceDetector.degenerate_landmarks ++ [(0 : FaceDetector.Pt)]) = ("laughing", 0.7) ∧
    (("laughing", (0.7 : ℝ)) : String × ℝ) ≠ ("neutral", 0.5) := by
  exact ⟨FaceDetector.analyze_degenerate_eval, FaceDetector.analyze_degenerate_append_eval,
    by simp⟩

/-- C2 (amended): on a landmark list with fewer than 68 points,
`_analyze_expression` raises an `IndexError` while computing the mouth
features, the `except` path catches it, and the result is
("neutral", 0.5).  (On degenerate geometry with a zero mouth width the
code does not fail either, but it returns the ordinary decision-tree
classification of the clamped-normalized features, not necessarily
"neutral" — see the counterexample.) -/
theorem analyze_short_input_neutral (landmarks : List FaceDetector.Pt)
    (h : landmarks.length < 68) :
    FaceDetector.analyze_expression landmarks = ("neutral", 0.5) := by
  have hlen : (FaceDetector.pySlice landmarks 48 68).length ≤ 19 := by
    simp only [FaceDetector.pySlice, List.length_take, List.length_drop]
    omega
  have h19 : (FaceDetector.pySlice landmarks 48 68).get? 19 = none :=
    List.get?_eq_none.mpr (by omega)
  have hmo : FaceDetector.calculate_mouth_openness
      (FaceDetector.pySlice landmarks 48 68) = none := by
    unfold FaceDetector.calculate_mouth_openness
    cases h13 : (FaceDetector.pySlice landmarks 48 68).get? 13 with
    | none => rfl
    | some p13 =>
      simp only [Option.bind_eq_bind, Option.some_bind]
      cases h14 : (FaceDetector.pySlice landmarks 48 68).get? 14 with
      | none => rfl
      | some p14 =>
        simp only [Option.bind_eq_bind, Option.some_bind]
        cases h15 : (FaceDetector.pySlice landmarks 48 68).get? 15 with
        | none => rfl
        | some p15 =>
          simp only [Option.bind_eq_bind, Option.some_bind, h19, Option.none_bind]
  unfold FaceDetector.analyze_expression
  simp only [hmo, Option.bind_eq_bind, Option.none_bind, Option.getD_none]

/-- Witness for C2 (amended) at the empty landmark list. -/
theorem analyze_short_input_neutral_witness :
    ([] : List FaceDetector.Pt).length < 68 ∧
      FaceDetector.analyze_expression [] = ("neutral", 0.5) :=
  ⟨by norm_num, analyze_short_input_neutral [] (by norm_num)⟩

/-- C1: for every feature vector arising from a well-formed 68-point
landmark set, `_classify_expression` agrees with the fixed ordered decision
tree of the spec (first matching rule wins), its label is drawn from the
fixed enumeration {happy, surprised, laughing, angry, sleepy, neutral},
and the attached per-branch confidence lies in [0.5, 0.85] ⊆ [0, 1]. -/
theorem classify_matches_spec_tree (mh mw eo eh : ℝ) :
    FaceDetector.classify_expression mh mw eo eh =
      FaceDetector.spec_decision_tree mh mw eo eh ∧
    (FaceDetector.classify_expression mh mw eo eh).1 ∈ FaceDetector.expression_labels ∧
    (0.5 : ℝ) ≤ (FaceDetector.classify_expression mh mw eo eh).2 ∧
    (FaceDetector.classify_expression mh mw eo eh).2 ≤ 0.85 := by
  unfold FaceDetector.classify_expression FaceDetector.spec_decision_tree
  unfold FaceDetector.mouth_open_threshold FaceDetector.mouth_wide_threshold
    FaceDetector.eye_open_threshold FaceDetector.eyebrow_raised_threshold
  refine ⟨?_, ?_⟩
  · split_ifs <;> simp_all
  · split_ifs <;> simp [FaceDetector.expression_labels] <;> norm_num

namespace EmojiRecommender

lemma score_antitone_in_threshold (c t1 t2 : ℚ) (h : t1 ≤ t2) (h0 : 0 ≤ t1) :
    calculate_emoji_score c t2 ≤ calculate_emoji_score c t1 := by
  unfold calculate_emoji_score
  split_ifs with ha hb hb
  · exact le_refl _
  · exact absurd (h.trans ha) hb
  · exact min_le_min (by nlinarith) le_rfl
  · exact le_refl _

lemma score_happy_002_le_happy_001 (c : ℚ) :
    calculate_emoji_score c 0.8 ≤ calculate_emoji_score c 0.7 :=
  score_antitone_in_threshold c 0.7 0.8 (by norm_num) (by norm_num)

lemma candidate_ids_of_lookup_none {p : String}
    (h : expression_mappings.lookup p = none) : candidate_ids p = ["neutral_001"] := by
  unfold candidate_ids
  rw [h]
  rfl

lemma lookup_mappings_eq_none {p : String} (h1 : p ≠ "happy") (h2 : p ≠ "surprised")
    (h3 : p ≠ "laughing") (h4 : p ≠ "angry") (h5 : p ≠ "neutral") (h6 : p ≠ "sleepy") :
    expression_mappings.lookup p = none := by
  have e1 : (p == "happy") = false := beq_eq_false_iff_ne.mpr h1
  have e2 : (p == "surprised") = false := beq_eq_false_iff_ne.mpr h2
  have e3 : (p == "laughing") = false := beq_eq_false_iff_ne.mpr h3
  have e4 : (p == "angry") = false := beq_eq_false_iff_ne.mpr h4
  have e5 : (p == "neutral") = false := beq_eq_false_iff_ne.mpr h5
  have e6 : (p == "sleepy") = false := beq_eq_false_iff_ne.mpr h6
  rw [show expression_mappings =
    [("happy", ["happy_001", "happy_002"]), ("surprised", ["surprised_001"]),
     ("laughing", ["laughing_001"]), ("angry", ["angry_001"]),
     ("neutral", ["neutral_001"]), ("sleepy", ["sleepy_001"])] from rfl]
  simp [List.lookup, e1, e2, e3, e4, e5, e6]

lemma ranked_fallback {p : String} (h : expression_mappings.lookup p = none) (c : ℚ) :
    recommend_ranked p c = Except.ok [("neutral_001", calculate_emoji_score c 0.4)] := by
  unfold recommend_ranked score_candidates
  rw [candidate_ids_of_lookup_none h]
  rfl

lemma ranked_surprised (c : ℚ) :
    recommend_ranked "surprised" c =
      Except.ok [("surprised_001", calculate_emoji_score c 0.6)] := rfl

lemma ranked_laughing (c : ℚ) :
    recommend_ranked "laughing" c =
      Except.ok [("laughing_001", calculate_emoji_score c 0.7)] := rfl

lemma ranked_angry (c : ℚ) :
    recommend_ranked "angry" c =
      Except.ok [("angry_001", calculate_emoji_score c 0.6)] := rfl

lemma ranked_neutral (c : ℚ) :
    recommend_ranked "neutral" c =
      Except.ok [("neutral_001", calculate_emoji_score c 0.4)] := rfl

lemma ranked_sleepy (c : ℚ) :
    recommend_ranked "sleepy" c =
      Except.ok [("sleepy_001", calculate_emoji_score c 0.5)] := rfl

lemma sort_desc_happy_pair (c : ℚ) :
    sort_desc [("happy_001", calculate_emoji_score c 0.7),
        ("happy_002", calculate_emoji_score c 0.8)] =
      [("happy_001", calculate_emoji_score c 0.7),
        ("happy_002", calculate_emoji_score c 0.8)] := by
  simp only [sort_desc, insert_desc]
  rw [if_pos (score_happy_002_le_happy_001 c)]

lemma ranked_happy (c : ℚ) :
    recommend_ranked "happy" c = Except.ok
      [("happy_001", calculate_emoji_score c 0.7),
        ("happy_002", calculate_emoji_score c 0.8)] := by
  unfold recommend_ranked
  rw [show score_candidates c (candidate_ids "happy") = Except.ok
      [("happy_001", calculate_emoji_score c 0.7),
        ("happy_002", calculate_emoji_score c 0.8)] from rfl]
  simp only [ok_bind]
  rw [sort_desc_happy_pair]
  rfl

lemma core_fallback {p : String} (h : expression_mappings.lookup p = none) (c : ℚ) :
    recommend_emoji_core p c = Except.ok
      { primary :=
          { id := "neutral_001", emoji := "😐",
            url := "https://cdn.emojiswap.com/assets/neutral_001.webp",
            anchor_points := [("left_eye", 80, 95), ("right_eye", 176, 95),
              ("mouth_center", 128, 180)],
            score := calculate_emoji_score c 0.4 },
        alternatives := [], expression_matched := p, confidence := c } := by
  unfold recommend_emoji_core
  rw [ranked_fallback h c]
  simp only [ok_bind]
  rfl

lemma core_happy (c : ℚ) :
    recommend_emoji_core "happy" c = Except.ok
      { primary :=
          { id := "happy_001", emoji := "😀",
            url := "https://cdn.emojiswap.com/assets/happy_001.webp",
            anchor_points := [("left_eye", 80, 95), ("right_eye", 176, 95),
              ("mouth_center", 128, 180)],
            score := calculate_emoji_score c 0.7 },
        alternatives := [⟨"happy_002", "😍", calculate_emoji_score c 0.8⟩],
        expression_matched := "happy", confidence := c } := by
  unfold recommend_emoji_core
  rw [ranked_happy c]
  simp only [ok_bind]
  rfl

end EmojiRecommender

/-- C4: for every expression confidence in [0,1] and every candidate
threshold, the recommendation score equals the confidence multiplied by 1.2
exactly when the confidence reaches the threshold, then clamped at 1;
consequently the score is always ≤ 1 and ≥ the un-boosted confidence. -/
theorem emoji_score_boost_and_clamp (c t : ℚ) (h0 : 0 ≤ c) (h1 : c ≤ 1) :
    EmojiRecommender.calculate_emoji_score c t =
      min (if c ≥ t then c * 1.2 else c) 1 ∧
    EmojiRecommender.calculate_emoji_score c t ≤ 1 ∧
    c ≤ EmojiRecommender.calculate_emoji_score c t := by
  have hdef : EmojiRecommender.calculate_emoji_score c t =
      min (if c ≥ t then c * 1.2 else c) 1 := by
    unfold EmojiRecommender.calculate_emoji_score
    norm_num
  refine ⟨hdef, ?_, ?_⟩
  · rw [hdef]
    exact min_le_right _ _
  · rw [hdef]
    apply le_min _ h1
    split_ifs with hb
    · nlinarith
    · exact le_rfl

/-- Witness for C4 at confidence 0.8, threshold 0.7 (boost applies:
score 0.96). -/
theorem emoji_score_boost_and_clamp_witness :
    (0 : ℚ) ≤ 0.8 ∧ (0.8 : ℚ) ≤ 1 ∧
    EmojiRecommender.calculate_emoji_score 0.8 0.7 =
      min (if (0.8 : ℚ) ≥ 0.7 then 0.8 * 1.2 else 0.8) 1 ∧
    EmojiRecommender.calculate_emoji_score 0.8 0.7 ≤ 1 ∧
    (0.8 : ℚ) ≤ EmojiRecommender.calculate_emoji_score 0.8 0.7 := by
  refine ⟨by norm_num, by norm_num, ?_, ?_, ?_⟩
  · exact (emoji_score_boost_and_clamp 0.8 0.7 (by norm_num) (by norm_num)).1
  · exact (emoji_score_boost_and_clamp 0.8 0.7 (by norm_num) (by norm_num)).2.1
  · exact (emoji_score_boost_and_clamp 0.8 0.7 (by norm_num) (by norm_num)).2.2

/-- C5: `recommend_emoji` is a pure function of the (expression, catalog)
input, and for every input the ranked candidate list — from which the
primary pick and the up-to-three ordered alternatives are read — is
produced without error and is canonically ordered: strictly descending by
score, with equal-score ties in catalog insertion order.  Identical inputs
therefore always yield the identical ordering. -/
theorem recommend_ranked_deterministic_order (p : String) (c : ℚ) :
    ∃ ranked, EmojiRecommender.recommend_ranked p c = Except.ok ranked ∧
      List.Pairwise (fun a b => b.2 < a.2 ∨ (b.2 = a.2 ∧
        EmojiRecommender.db_index a.1 < EmojiRecommender.db_index b.1)) ranked := by
  by_cases h1 : p = "happy"
  · subst h1
    refine ⟨_, EmojiRecommender.ranked_happy c, ?_⟩
    have hs := EmojiRecommender.score_happy_002_le_happy_001 c
    refine List.Pairwise.cons ?_ (List.pairwise_singleton _ _)
    intro b hb
    rw [List.mem_singleton] at hb
    subst hb
    rcases lt_or_eq_of_le hs with hlt | heq
    · exact Or.inl hlt
    · exact Or.inr ⟨heq, show EmojiRecommender.db_index "happy_001" <
        EmojiRecommender.db_index "happy_002" by decide⟩
  by_cases h2 : p = "surprised"
  · subst h2
    exact ⟨_, EmojiRecommender.ranked_surprised c, List.pairwise_singleton _ _⟩
  by_cases h3 : p = "laughing"
  · subst h3
    exact ⟨_, EmojiRecommender.ranked_laughing c, List.pairwise_singleton _ _⟩
  by_cases h4 : p = "angry"
  · subst h4
    exact ⟨_, EmojiRecommender.ranked_angry c, List.pairwise_singleton _ _⟩
  by_cases h5 : p = "neutral"
  · subst h5
    exact ⟨_, EmojiRecommender.ranked_neutral c, List.pairwise_singleton _ _⟩
  by_cases h6 : p = "sleepy"
  · subst h6
    exact ⟨_, EmojiRecommender.ranked_sleepy c, List.pairwise_singleton _ _⟩
  have hl := EmojiRecommender.lookup_mappings_eq_none h1 h2 h3 h4 h5 h6
  exact ⟨_, EmojiRecommender.ranked_fallback hl c, List.pairwise_singleton _ _⟩

/-- C6: `recommend_emoji` never propagates an error: for every input the
try-body succeeds (the except arm is unreachable over the hardcoded
catalog); when the primary label has no catalog entries the candidate set
falls back to the "neutral" tag set and the primary pick is neutral_001;
and the hardcoded default returned on an internal failure is the
neutral_001 recommendation with score 0.5 and no alternatives. -/
theorem recommend_total_neutral_fallback (p : String) (c : ℚ) :
    (∃ r, EmojiRecommender.recommend_emoji_core p c = Except.ok r) ∧
    (EmojiRecommender.expression_mappings.lookup p = none →
      (EmojiRecommender.recommend_emoji p c).primary.id = "neutral_001") ∧
    EmojiRecommender.get_default_recommendation =
      { primary :=
          { id := "neutral_001", emoji := "😐",
            url := "https://cdn.emojiswap.com/assets/neutral_001.webp",
            anchor_points := [("left_eye", 80, 95), ("right_eye", 176, 95),
              ("mouth_center", 128, 180)],
            score := 0.5 },
        alternatives := [], expression_matched := "neutral", confidence := 0.5 } := by
  refine ⟨?_, ?_, rfl⟩
  · by_cases h1 : p = "happy"
    · subst h1
      exact ⟨_, EmojiRecommender.core_happy c⟩
    by_cases h2 : p = "surprised"
    · subst h2
      exact ⟨_, rfl⟩
    by_cases h3 : p = "laughing"
    · subst h3
      exact ⟨_, rfl⟩
    by_cases h4 : p = "angry"
    · subst h4
      exact ⟨_, rfl⟩
    by_cases h5 : p = "neutral"
    · subst h5
      exact ⟨_, rfl⟩
    by_cases h6 : p = "sleepy"
    · subst h6
      exact ⟨_, rfl⟩
    have hl := EmojiRecommender.lookup_mappings_eq_none h1 h2 h3 h4 h5 h6
    exact ⟨_, EmojiRecommender.core_fallback hl c⟩
  · intro hl
    unfold EmojiRecommender.recommend_emoji
    rw [EmojiRecommender.core_fallback hl c]

/-- Witness for C6 at the unknown expression label "confused": the lookup
misses and the recommendation falls back to neutral_001. -/
theorem recommend_total_neutral_fallback_witness :
    EmojiRecommender.expression_mappings.lookup "confused" = none ∧
    (EmojiRecommender.recommend_emoji "confused" 0.9).primary.id = "neutral_001" := by
  have h : EmojiRecommender.expression_mappings.lookup "confused" = none := by decide
  exact ⟨h, (recommend_total_neutral_fallback "confused" 0.9).2.1 h⟩

/-- C7: compositing with configured opacity 0 is the identity on the
destination: for every asset alpha map, asset, destination image and
pixel, the per-pixel alpha `assetalpha/255 * 0` is 0, so the blend
`0 * asset + 1 * destination` truncates back to the destination value,
inside and outside the overlay region alike. -/
theorem composite_opacity_zero_identity (in_region : ℕ → ℕ → Bool)
    (asset_alpha asset dst : ℕ → ℕ → Fin 256) (x y : ℕ) :
    FaceProcessor.composite_region 0 in_region asset_alpha asset dst x y = dst x y := by
  unfold FaceProcessor.composite_region
  split_ifs with h
  · apply Fin.ext
    show FaceProcessor.npUint8
        ((((asset_alpha x y : ℕ) : ℚ) / 255 * 0) * ((asset x y : ℕ) : ℚ) +
          (1 - ((asset_alpha x y : ℕ) : ℚ) / 255 * 0) * ((dst x y : ℕ) : ℚ)) =
      (dst x y : ℕ)
    rw [show (((asset_alpha x y : ℕ) : ℚ) / 255 * 0) * ((asset x y : ℕ) : ℚ) +
        (1 - ((asset_alpha x y : ℕ) : ℚ) / 255 * 0) * ((dst x y : ℕ) : ℚ) =
        ((dst x y : ℕ) : ℚ) by ring]
    unfold FaceProcessor.npUint8
    rw [Int.floor_natCast, Int.toNat_natCast]
    exact Nat.mod_eq_of_lt (dst x y).isLt
  · rfl

/-- C3 is false of the code as a "never raises" claim, and the code is the
broken side: for every input byte string `detect_faces` raises
`NameError` on the name `time` at line 27, before its `try` block,
because `app/services/face_detector.py` never imports `time`; no
dictionary with a "faces" list is ever returned. -/
theorem detect_faces_always_raises_nameError (image_data : List (Fin 256)) :
    FaceDetectorModule.detect_faces image_data =
      Except.error (PyError.nameError "time") := rfl

namespace WebSocketManager

/-- Evaluation of `process_frame` on an admitted frame: when the detector
is assigned and the elapsed time reaches the minimum interval, the pipeline
raises (`NameError` from `detect_faces`), an error event is broadcast and
the state is unchanged. -/
lemma process_frame_error_eval (m : ManagerState) (dev : String) (fid : ℕ) (now : ℚ)
    (hfd : m.face_detector_initialized = true)
    (hnd : ¬(now - ((m.device_states.lookup dev).map
      (fun ds => ds.last_frame_time)).getD 0 < min_frame_interval)) :
    process_frame m dev [] fid now =
      (m, [Event.error_event dev "name time is not defined"]) := by
  simp only [process_frame]
  rw [if_neg hnd]
  rw [show frame_pipeline m.face_detector_initialized [] =
    Except.error (PyError.nameError "time") from by rw [hfd]; rfl]
  rfl

/-- Evaluation of `process_frame` on a frame inside the minimum interval:
silent drop, no event, no state change. -/
lemma process_frame_drop_eval (m : ManagerState) (dev : String) (fid : ℕ) (now : ℚ)
    (hlt : now - ((m.device_states.lookup dev).map
      (fun ds => ds.last_frame_time)).getD 0 < min_frame_interval) :
    process_frame m dev [] fid now = (m, []) := by
  simp only [process_frame]
  rw [if_pos hlt]

end WebSocketManager

/-- C8 is false of the code, and the code is the broken side: with a
session connected at t = 0 and frames submitted at t = 1 s and t = 1.01 s
(10 ms apart), the claim says the second frame is dropped silently with no
event; instead BOTH frames produce an error broadcast and neither updates
any session state, because an admitted frame always raises before the
update of lines 79–83 (`recommend_emojis` does not exist, and
`detect_faces` raises `NameError`), so `last_frame_time` stays at its
connect-time value.  The admission check itself does drop a frame that
arrives within 1/30 s of the stored `last_frame_time` (final conjunct:
a frame at t = 1/60 s is silently dropped). -/
theorem frame_admission_counterexample :
    WebSocketManager.admission_r1.2 =
      [WebSocketManager.Event.error_event "dev" "name time is not defined"] ∧
    WebSocketManager.admission_r2.2 =
      [WebSocketManager.Event.error_event "dev" "name time is not defined"] ∧
    WebSocketManager.admission_r1.1 = WebSocketManager.admission_m0 ∧
    WebSocketManager.admission_r2.1 = WebSocketManager.admission_m0 ∧
    WebSocketManager.process_frame WebSocketManager.admission_m0 "dev" [] 9 (1 / 60) =
      (WebSocketManager.admission_m0, []) := by
  have hlast : ((WebSocketManager.admission_m0.device_states.lookup "dev").map
      (fun ds => ds.last_frame_time)).getD 0 = 0 := rfl
  have h1 : WebSocketManager.admission_r1 = (WebSocketManager.admission_m0,
      [WebSocketManager.Event.error_event "dev" "name time is not defined"]) := by
    unfold WebSocketManager.admission_r1
    apply WebSocketManager.process_frame_error_eval
    · rfl
    · rw [hlast]
      norm_num [WebSocketManager.min_frame_interval]
  have hfst : WebSocketManager.admission_r1.1 = WebSocketManager.admission_m0 := by
    rw [h1]
  have h2 : WebSocketManager.admission_r2 = (WebSocketManager.admission_m0,
      [WebSocketManager.Event.error_event "dev" "name time is not defined"]) := by
    unfold WebSocketManager.admission_r2
    rw [hfst]
    apply WebSocketManager.process_frame_error_eval
    · rfl
    · rw [hlast]
      norm_num [WebSocketManager.min_frame_interval]
  refine ⟨by rw [h1], by rw [h2], hfst, by rw [h2], ?_⟩
  apply WebSocketManager.process_frame_drop_eval
  rw [hlast]
  norm_num [WebSocketManager.min_frame_interval]

/-- C10 is false of the code in its disconnect clause, and the code is the
broken side: connect one client for a device, then disconnect it.  The
subscriber set and device state are deleted, but
`del self.last_frame_times[device_id]` (line 38) raises `KeyError`,
because nothing in the class ever writes `last_frame_times` (`connect`
stores the timestamp inside `device_states` instead), so the disconnect of
the last subscriber raises instead of removing the session state
cleanly. -/
theorem disconnect_last_subscriber_raises_keyError :
    WebSocketManager.disconnect
        (WebSocketManager.connect WebSocketManager.initial_manager 7 "dev" 0) 7 "dev" =
      Except.error (PyError.keyError "dev") := rfl

/-- C9 counterexample: a job already in the terminal status "complete" is
updated again; `update_job_status` overwrites the terminal status with
"processing", so the terminal state is not latched. -/
theorem job_terminal_status_not_latched :
    JobManager.update_job_status
        [(JobManager.jobKey "j1", { status := "complete", result := none })]
        "j1" "processing" none =
      [(JobManager.jobKey "j1", { status := "processing", result := none })] ∧
    ("processing" : String) ≠ "complete" := ⟨rfl, by decide⟩

/-- C9 (amended): `update_job_status` applies every update to an existing
record unconditionally — there is no terminal-state latch, so a status of
"complete" or "failed" can be overwritten by any later update; the only
guarded case is an absent (expired or never created) record, which is left
untouched. -/
theorem update_job_status_unconditional (store : JobManager.Store)
    (job_id status : String) (result : Option String) (job : JobManager.JobData)
    (h : List.lookup (JobManager.jobKey job_id) store = some job) :
    List.lookup (JobManager.jobKey job_id)
        (JobManager.update_job_status store job_id status result) =
      some (JobManager.JobData.mk status
        (match result with | some r => some r | none => job.result)) ∧
    ∀ store2 : JobManager.Store,
      List.lookup (JobManager.jobKey job_id) store2 = none →
      JobManager.update_job_status store2 job_id status result = store2 := by
  constructor
  · unfold JobManager.update_job_status
    rw [h]
    cases result with
    | none => exact lookup_dictSet_self store (JobManager.jobKey job_id) _
    | some r => exact lookup_dictSet_self store (JobManager.jobKey job_id) _
  · intro store2 h2
    unfold JobManager.update_job_status
    rw [h2]

/-- Witness for C9 (amended): a completed job overwritten to "pending". -/
theorem update_job_status_unconditional_witness :
    List.lookup (JobManager.jobKey "j2")
        [(JobManager.jobKey "j2",
          ({ status := "complete", result := none } : JobManager.JobData))] =
      some { status := "complete", result := none } ∧
    List.lookup (JobManager.jobKey "j2")
        (JobManager.update_job_status
          [(JobManager.jobKey "j2", { status := "complete", result := none })]
          "j2" "pending" none) =
      some { status := "pending", result := none } := by
  refine ⟨rfl, ?_⟩
  exact (update_job_status_unconditional
    [(JobManager.jobKey "j2", { status := "complete", result := none })]
    "j2" "pending" none { status := "complete", result := none } rfl).1
